import Mathlib

/-!
Verification development for the SuiteCRM CTI middleware.

The middleware correlates FreePBX call-control events with ElevenLabs
post-call webhook events and reconciles them into SuiteCRM call records,
fanning out live status over WebSocket connections.

Shallow embedding conventions:
* JavaScript strings are modelled as `List Char` (`Str`), so that every
  operation evaluates inside the kernel.
* A JS `Map` is modelled as an association list in insertion order (`JsMap`).
* Timestamps are milliseconds since the epoch as `Int` (`Date.now()`); ISO
  strings stored on records are identified with the instant they denote.
* External network calls (SuiteCRM POST/PATCH, HMAC) are abstracted as
  function parameters; the orchestrator embeddings model the success path of
  those calls and record the issued operations as explicit effect lists.
-/

namespace CTI

/-- JavaScript strings, modelled as lists of characters. -/
abbrev Str := List Char

/-- JS `String.prototype.split` with a single-character separator, as used by
`verifySignature` (`signatureHeader.split(',')`). -/
def jsSplit (sep : Char) : Str → List Str
  | [] => [[]]
  | c :: rest =>
    match jsSplit sep rest with
    | [] => if c = sep then [[], []] else [[c]]
    | h :: t => if c = sep then [] :: h :: t else (c :: h) :: t

/-- JS truthiness of an optional string: `undefined` and `""` are falsy. -/
def jsTruthy : Option Str → Bool
  | none => false
  | some s => !s.isEmpty

/-- JS `a || b` on strings (empty string falls through to the default). -/
def jsOr (a b : Str) : Str := if a.isEmpty then b else a

/-- Model of JavaScript `Number(s)` restricted to the header grammar: the empty
string is `0`, a string of decimal digits is the corresponding integer, and
every other string is NaN (`none`); every comparison against NaN is false, as
in JS.  (Signed, fractional and exponent literals are outside the grammar the
claims quantify over and are mapped to NaN by this model.) -/
def jsNumber (s : Str) : Option Int :=
  if s.isEmpty then some 0
  else if s.all Char.isDigit then
    some ((s.foldl (fun n c => n * 10 + (c.toNat - 48)) 0 : Nat) : Int)
  else none

/-- JS `String.prototype.trim`, restricted to the common whitespace characters. -/
def jsTrim (s : Str) : Str :=
  ((s.dropWhile fun c => c == ' ' || c == '\n' || c == '\t' || c == '\r').reverse.dropWhile
    fun c => c == ' ' || c == '\n' || c == '\t' || c == '\r').reverse

/-- Result of `verifySignature`: the `{valid, error}` object. -/
structure VerifyResult where
  valid : Bool
  error : Option Str
deriving DecidableEq

/-- The `headers.find(e => e.startsWith('t='))?.substring(2)` step of
`ElevenLabsWebhook.verifySignature`. -/
def headerTimestamp (h : Str) : Option Str :=
  ((jsSplit ',' h).find? fun e => "t=".data.isPrefixOf e).map (List.drop 2)

/-- The `headers.find(e => e.startsWith('v0='))` step of
`ElevenLabsWebhook.verifySignature` (the whole `v0=...` part is kept). -/
def headerSignaturePart (h : Str) : Option Str :=
  (jsSplit ',' h).find? fun e => "v0=".data.isPrefixOf e

/-- Shallow embedding of `ElevenLabsWebhook.verifySignature`.

`hmacHex secret message` abstracts
`crypto.createHmac('sha256', secret).update(message).digest('hex')`;
`nowMs` abstracts `Date.now()`; `secret` is `config.webhookSecret`
(`none` or `some []` model the falsy "not configured" cases). -/
def verifySignature (hmacHex : Str → Str → Str) (nowMs toleranceSecs : Int)
    (secret : Option Str) (payload signatureHeader : Str) : VerifyResult :=
  match headerTimestamp signatureHeader, headerSignaturePart signatureHeader with
  | some timestamp, some signature =>
    if timestamp.isEmpty then ⟨false, some "Invalid signature format".data⟩
    else if (match jsNumber timestamp with
             | some t => decide (t * 1000 < nowMs - toleranceSecs * 1000)
             | none => false) then
      ⟨false, some "Request expired".data⟩
    else if !(jsTruthy secret) then ⟨true, none⟩
    else if signature = "v0=".data ++ hmacHex (secret.getD []) (timestamp ++ ".".data ++ payload) then
      ⟨true, none⟩
    else ⟨false, some "Invalid signature".data⟩
  | _, _ => ⟨false, some "Invalid signature format".data⟩

lemma isEmpty_false_of_ne_nil {s : Str} (h : s ≠ []) : s.isEmpty = false := by
  cases s with
  | nil => exact absurd rfl h
  | cons a l => rfl


/-- Evaluation of `verifySignature` on a header whose `t=` and `v0=` fields
were both found and whose timestamp text is non-empty. -/
lemma verifySignature_eval (hmacHex : Str → Str → Str) (nowMs toleranceSecs : Int)
    (secret : Option Str) (payload header ts sig : Str)
    (hts : headerTimestamp header = some ts)
    (hsig : headerSignaturePart header = some sig)
    (htne : ts ≠ []) :
    verifySignature hmacHex nowMs toleranceSecs secret payload header =
      if (match jsNumber ts with
          | some t => decide (t * 1000 < nowMs - toleranceSecs * 1000)
          | none => false) then
        ⟨false, some "Request expired".data⟩
      else if !(jsTruthy secret) then ⟨true, none⟩
      else if sig = "v0=".data ++ hmacHex (secret.getD []) (ts ++ ".".data ++ payload) then
        ⟨true, none⟩
      else ⟨false, some "Invalid signature".data⟩ := by
  unfold verifySignature
  rw [hts, hsig]
  simp [isEmpty_false_of_ne_nil htne]

/-- Evaluation of `verifySignature` when the timestamp text is a decimal
numeral of value `t`. -/
lemma verifySignature_eval_num (hmacHex : Str → Str → Str) (nowMs toleranceSecs : Int)
    (secret : Option Str) (payload header ts sig : Str) (t : Int)
    (hts : headerTimestamp header = some ts)
    (hsig : headerSignaturePart header = some sig)
    (htne : ts ≠ [])
    (hnum : jsNumber ts = some t) :
    verifySignature hmacHex nowMs toleranceSecs secret payload header =
      if t * 1000 < nowMs - toleranceSecs * 1000 then
        ⟨false, some "Request expired".data⟩
      else if !(jsTruthy secret) then ⟨true, none⟩
      else if sig = "v0=".data ++ hmacHex (secret.getD []) (ts ++ ".".data ++ payload) then
        ⟨true, none⟩
      else ⟨false, some "Invalid signature".data⟩ := by
  rw [verifySignature_eval hmacHex nowMs toleranceSecs secret payload header ts sig hts hsig htne,
    hnum]
  by_cases hexp : t * 1000 < nowMs - toleranceSecs * 1000
  · simp [hexp]
  · simp [hexp]

/-- Evaluation of `verifySignature` when the timestamp text is not numeric
(JS `Number` yields NaN, whose comparisons are all false: never expired). -/
lemma verifySignature_eval_nan (hmacHex : Str → Str → Str) (nowMs toleranceSecs : Int)
    (secret : Option Str) (payload header ts sig : Str)
    (hts : headerTimestamp header = some ts)
    (hsig : headerSignaturePart header = some sig)
    (htne : ts ≠ [])
    (hnum : jsNumber ts = none) :
    verifySignature hmacHex nowMs toleranceSecs secret payload header =
      if !(jsTruthy secret) then ⟨true, none⟩
      else if sig = "v0=".data ++ hmacHex (secret.getD []) (ts ++ ".".data ++ payload) then
        ⟨true, none⟩
      else ⟨false, some "Invalid signature".data⟩ := by
  rw [verifySignature_eval hmacHex nowMs toleranceSecs secret payload header ts sig hts hsig htne,
    hnum]
  simp

/-- Evaluation of `verifySignature` on a header missing the `t=` or `v0=` field. -/
lemma verifySignature_malformed (hmacHex : Str → Str → Str) (nowMs toleranceSecs : Int)
    (secret : Option Str) (payload header : Str)
    (h : headerTimestamp header = none ∨ headerSignaturePart header = none) :
    verifySignature hmacHex nowMs toleranceSecs secret payload header =
      ⟨false, some "Invalid signature format".data⟩ := by
  unfold verifySignature
  rcases h with h | h
  · rw [h]
  · rw [h]
    cases headerTimestamp header <;> rfl

/-- Evaluation of `verifySignature` when the `t=` field is present but empty
(`t=` parses to the empty, falsy, timestamp string). -/
lemma verifySignature_empty_ts (hmacHex : Str → Str → Str) (nowMs toleranceSecs : Int)
    (secret : Option Str) (payload header : Str)
    (hts : headerTimestamp header = some []) :
    verifySignature hmacHex nowMs toleranceSecs secret payload header =
      ⟨false, some "Invalid signature format".data⟩ := by
  unfold verifySignature
  rw [hts]
  cases headerSignaturePart header <;> rfl

/-- C3: with a configured secret, for a header whose `t=` field is the decimal
numeral `ts` (of value `t`) and whose `v0=` part is `sig`, verification
succeeds iff the timestamp is within tolerance of now and the `v0` field
equals the hex HMAC of `"<t>.<rawBody>"` under the secret; any change of the
body that changes the HMAC makes verification fail; and a header missing the
`t=` or `v0=` field fails with the malformed-header error. -/
theorem verifySignature_correct (hmacHex : Str → Str → Str)
    (nowMs toleranceSecs : Int) (sec payload header ts sig : Str) (t : Int)
    (hsec : sec ≠ [])
    (hts : headerTimestamp header = some ts)
    (hsig : headerSignaturePart header = some sig)
    (htne : ts ≠ [])
    (hnum : jsNumber ts = some t) :
    ((verifySignature hmacHex nowMs toleranceSecs (some sec) payload header).valid = true ↔
      (nowMs - t * 1000 ≤ toleranceSecs * 1000 ∧
        sig = "v0=".data ++ hmacHex sec (ts ++ ".".data ++ payload)))
    ∧ (∀ payload',
        hmacHex sec (ts ++ ".".data ++ payload') ≠ hmacHex sec (ts ++ ".".data ++ payload) →
        (verifySignature hmacHex nowMs toleranceSecs (some sec) payload header).valid = true →
        (verifySignature hmacHex nowMs toleranceSecs (some sec) payload' header).valid = false)
    ∧ (∀ header', headerTimestamp header' = none ∨ headerSignaturePart header' = none →
        verifySignature hmacHex nowMs toleranceSecs (some sec) payload header' =
          ⟨false, some "Invalid signature format".data⟩) := by
  have htr : (!(jsTruthy (some sec))) = false := by
    simp [jsTruthy, isEmpty_false_of_ne_nil hsec]
  have key : ∀ p, verifySignature hmacHex nowMs toleranceSecs (some sec) p header =
      if t * 1000 < nowMs - toleranceSecs * 1000 then
        ⟨false, some "Request expired".data⟩
      else if sig = "v0=".data ++ hmacHex sec (ts ++ ".".data ++ p) then
        ⟨true, none⟩
      else ⟨false, some "Invalid signature".data⟩ := by
    intro p
    rw [verifySignature_eval_num hmacHex nowMs toleranceSecs (some sec) p header ts sig t
      hts hsig htne hnum, htr]
    simp
  have hfact : ∀ p, (verifySignature hmacHex nowMs toleranceSecs (some sec) p header).valid = true →
      ¬ t * 1000 < nowMs - toleranceSecs * 1000 ∧
        sig = "v0=".data ++ hmacHex sec (ts ++ ".".data ++ p) := by
    intro p hv
    rw [key p] at hv
    split_ifs at hv with h1 h2
    exact ⟨h1, h2⟩
  refine ⟨?_, ?_, ?_⟩
  · constructor
    · intro hv
      obtain ⟨h1, h2⟩ := hfact payload hv
      exact ⟨by omega, h2⟩
    · rintro ⟨h1, h2⟩
      rw [key payload]
      rw [if_neg (by omega), if_pos h2]
  · intro payload' hdiff hval
    obtain ⟨h1, h2⟩ := hfact payload hval
    rw [key payload']
    rw [if_neg h1]
    have hne : sig ≠ "v0=".data ++ hmacHex sec (ts ++ ".".data ++ payload') := by
      rw [h2]
      intro h
      exact hdiff (List.append_cancel_left h).symm
    rw [if_neg hne]
  · intro header' h
    exact verifySignature_malformed hmacHex nowMs toleranceSecs (some sec) payload header' h

/-- Witness for C3 at a concrete header, secret and body: the genuine signature
verifies, a tampered body fails, and a field-free header is malformed. -/
theorem verifySignature_correct_witness :
    (verifySignature (fun s m => s ++ m) 0 0 (some "k".data) "B".data
        "t=9,v0=k9.B".data).valid = true
    ∧ (verifySignature (fun s m => s ++ m) 0 0 (some "k".data) "C".data
        "t=9,v0=k9.B".data).valid = false
    ∧ verifySignature (fun s m => s ++ m) 0 0 (some "k".data) "B".data "junk".data =
        ⟨false, some "Invalid signature format".data⟩ := by
  have h := verifySignature_correct (fun s m => s ++ m) 0 0 "k".data "B".data
    "t=9,v0=k9.B".data "9".data "v0=k9.B".data 9
    (by decide) (by decide) (by decide) (by decide) (by decide)
  have hv : (verifySignature (fun s m => s ++ m) 0 0 (some "k".data) "B".data
      "t=9,v0=k9.B".data).valid = true := h.1.mpr ⟨by decide, by decide⟩
  exact ⟨hv, h.2.1 "C".data (by decide) hv, h.2.2 "junk".data (by decide)⟩

/-- C5 counterexample: with no secret configured, a well-formed header with a
stale timestamp is still rejected as expired — verification does not "always
succeed, regardless of the header's timestamp" when the secret is absent. -/
theorem noSecret_not_always_valid :
    verifySignature (fun _ _ => []) 1900000000000 1800 none "b".data "t=1,v0=x".data =
      ⟨false, some "Request expired".data⟩ := by decide

/-- C5 amended: when the secret is not configured the HMAC comparison is
skipped and the signature value is ignored, but the malformed-header and
staleness checks still run first: for a header carrying a non-empty `t=`
field and a `v0=` field, verification succeeds iff the timestamp is not
stale (non-numeric timestamps are never stale, as NaN comparisons are false). -/
theorem noSecret_skips_only_hmac (hmacHex : Str → Str → Str)
    (nowMs toleranceSecs : Int) (payload header ts sig : Str)
    (hts : headerTimestamp header = some ts)
    (hsig : headerSignaturePart header = some sig)
    (htne : ts ≠ []) :
    (verifySignature hmacHex nowMs toleranceSecs none payload header).valid = true ↔
      (∀ t : Int, jsNumber ts = some t → nowMs - t * 1000 ≤ toleranceSecs * 1000) := by
  cases hnum : jsNumber ts with
  | none =>
    rw [verifySignature_eval_nan hmacHex nowMs toleranceSecs none payload header ts sig
      hts hsig htne hnum]
    constructor
    · rintro - t' ht'
      simp at ht'
    · intro _
      rfl
  | some t =>
    rw [verifySignature_eval_num hmacHex nowMs toleranceSecs none payload header ts sig t
      hts hsig htne hnum]
    by_cases hexp : t * 1000 < nowMs - toleranceSecs * 1000
    · rw [if_pos hexp]
      constructor
      · intro h
        exact absurd h (by decide)
      · intro h
        have := h t rfl
        exfalso
        omega
    · rw [if_neg hexp]
      constructor
      · rintro - t' ht'
        cases ht'
        omega
      · intro _
        rfl

/-- Witness for the amended C5: with no secret, a fresh header verifies even
though its `v0` value is garbage. -/
theorem noSecret_skips_only_hmac_witness :
    (verifySignature (fun _ _ => []) 0 0 none "b".data "t=5,v0=zz".data).valid = true :=
  (noSecret_skips_only_hmac (fun _ _ => []) 0 0 "b".data "t=5,v0=zz".data
    "5".data "v0=zz".data (by decide) (by decide) (by decide)).mpr
    (by
      intro t ht
      have h5 : jsNumber "5".data = some 5 := by decide
      rw [h5] at ht
      cases ht
      decide)

/-- C10: `verifySignature` is total over arbitrary payloads and header strings:
it always returns a `{valid, error}` record, with `error` absent exactly on
success and a non-empty message on every failure path. -/
theorem verifySignature_total (hmacHex : Str → Str → Str)
    (nowMs toleranceSecs : Int) (secret : Option Str) (payload header : Str) :
    ((verifySignature hmacHex nowMs toleranceSecs secret payload header).valid = true ∧
      (verifySignature hmacHex nowMs toleranceSecs secret payload header).error = none)
    ∨ ((verifySignature hmacHex nowMs toleranceSecs secret payload header).valid = false ∧
      ∃ msg, (verifySignature hmacHex nowMs toleranceSecs secret payload header).error =
          some msg ∧ msg ≠ []) := by
  cases hts : headerTimestamp header with
  | none =>
    rw [verifySignature_malformed hmacHex nowMs toleranceSecs secret payload header (Or.inl hts)]
    right
    exact ⟨rfl, "Invalid signature format".data, rfl, by decide⟩
  | some ts =>
    cases hsig : headerSignaturePart header with
    | none =>
      rw [verifySignature_malformed hmacHex nowMs toleranceSecs secret payload header
        (Or.inr hsig)]
      right
      exact ⟨rfl, "Invalid signature format".data, rfl, by decide⟩
    | some sig =>
      by_cases htne : ts = []
      · subst htne
        rw [verifySignature_empty_ts hmacHex nowMs toleranceSecs secret payload header hts]
        right
        exact ⟨rfl, "Invalid signature format".data, rfl, by decide⟩
      · rw [verifySignature_eval hmacHex nowMs toleranceSecs secret payload header ts sig
          hts hsig htne]
        split_ifs
        · right
          exact ⟨rfl, "Request expired".data, rfl, by decide⟩
        · left
          exact ⟨rfl, rfl⟩
        · left
          exact ⟨rfl, rfl⟩
        · right
          exact ⟨rfl, "Invalid signature".data, rfl, by decide⟩

/-- A JS `Map` keyed by strings: association list in insertion order.
`Map.prototype.set` replaces in place; `delete` removes; `get` finds. -/
abbrev JsMap (α : Type) := List (Str × α)

/-- JS `Map.prototype.get`. -/
def jsGet {α : Type} (m : JsMap α) (k : Str) : Option α :=
  match m with
  | [] => none
  | kv :: rest => if kv.1 = k then some kv.2 else jsGet rest k

/-- JS `Map.prototype.set`: overwrite in place if the key exists, else append. -/
def jsSet {α : Type} (m : JsMap α) (k : Str) (v : α) : JsMap α :=
  match m with
  | [] => [(k, v)]
  | kv :: rest => if kv.1 = k then (k, v) :: rest else kv :: jsSet rest k v

/-- JS `Map.prototype.delete`. -/
def jsDelete {α : Type} (m : JsMap α) (k : Str) : JsMap α :=
  m.filter fun kv => !(kv.1 = k : Bool)

/-- An in-flight call tracked by `CTIMiddleware.activeCalls`
(`uniqueId -> call data`).  Fields mirror the properties the middleware reads
or writes on a call object; `startTime` is the creation instant; `contact` and
`account` hold the ids of the CRM entities matched by phone lookup. -/
structure CallRec where
  callerIdNum : Str := []
  callerIdName : Str := []
  channel : Str := []
  exten : Option Str := none
  startTime : Int := 0
  events : List Str := []
  conversationId : Option Str := none
  crmCallId : Option Str := none
  endTime : Option Int := none
  duration : Option Int := none
  hangupCause : Option Str := none
  contact : Option Str := none
  account : Option Str := none
deriving DecidableEq

/-- The `call:new` event payload consumed by `handleNewCall`. -/
structure NewCallData where
  uniqueId : Str
  callerIdNum : Str := []
  callerIdName : Str := []
  channel : Str := []
  exten : Option Str := none
deriving DecidableEq

/-- The `call:hangup` event payload consumed by `handleHangup`.  The FreePBX
client never sets `callerIdName` on hangup events, but the middleware reads it
with a fallback, so it is kept as an optional field. -/
structure HangupData where
  uniqueId : Str
  callerIdNum : Str := []
  callerIdName : Option Str := none
  channel : Str := []
  duration : Int := 0
  causeTxt : Str := []
deriving DecidableEq

/-- One turn of an ElevenLabs transcript. -/
structure Turn where
  role : Str := []
  message : Str := []
  timeInCallSecs : Option Int := none
deriving DecidableEq

/-- The object `extractCallData` returns for a `post_call_transcription` event,
restricted to the fields the middleware's handlers read (the remaining
analytics fields are verbatim pass-throughs into the call-log payload). -/
structure WebhookCallData where
  conversationId : Str
  phoneNumber : Str := []
  userName : Str := []
  startTime : Int := 0
  duration : Int := 0
  cost : Int := 0
  transcript : List Turn := []
  summary : Str := []
  callSuccessful : Str := []
  terminationReason : Str := []
  agentId : Str := []
deriving DecidableEq

/-- Decimal numeral of a natural number. -/
def natToStr (n : Nat) : Str := Nat.toDigits 10 n

/-- Shallow embedding of `ElevenLabsWebhook.formatTranscript`. -/
def formatTranscript (transcript : List Turn) : Str :=
  match transcript.map (fun turn =>
    (match turn.timeInCallSecs with
     | some t =>
       if t ≠ 0 then "[".data ++ natToStr t.toNat ++ "s]".data else []
     | none => []) ++ " ".data ++ turn.role.map Char.toUpper ++ ": ".data ++ turn.message) with
  | [] => []
  | line :: rest => rest.foldl (fun acc l => acc ++ "\n\n".data ++ l) line

/-- The extended-attribute update payload the webhook update branch PATCHes
onto an existing CRM call (`ai_summary_c`, `call_transcript_c`,
`call_successful_c`, `call_cost_c`, `conversation_id_c`). -/
structure CallUpdates where
  aiSummary : Str := []
  transcript : Str := []
  callSuccessful : Str := []
  cost : Int := 0
  conversationId : Str := []
deriving DecidableEq

/-- The object handed to `SuiteCRMClient.createCall`. -/
structure CrmCallData where
  name : Str := []
  callerIdNum : Str := []
  callerIdName : Str := []
  startTime : Option Int := none
  duration : Int := 0
  status : Str := []
  direction : Str := []
  description : Str := []
  conversationId : Option Str := none
  aiSummary : Option Str := none
  transcript : Option Str := none
  callSuccessful : Option Str := none
  cost : Option Int := none
deriving DecidableEq

/-- The object handed to `SuiteCRMClient.createCallLog`, restricted to the
identifying fields (the remaining analytics fields are verbatim
pass-throughs from the webhook payload). -/
structure CallLogData where
  name : Str := []
  conversationId : Str := []
  callerName : Str := []
  phoneNumber : Str := []
  summary : Str := []
  transcript : Str := []
  successful : Str := []
  cost : Int := 0
  duration : Int := 0
  terminationReason : Str := []
deriving DecidableEq

/-- An external SuiteCRM mutation issued by the middleware. -/
inductive CrmOp
  | updateCall (callId : Str) (updates : CallUpdates)
  | createCall (data : CrmCallData)
  | createCallLog (data : CallLogData)
  | linkContact (callId contactId : Str)
  | linkAccount (callId accountId : Str)
deriving DecidableEq

/-- A WebSocket fan-out effect issued by the middleware. -/
inductive WsOp
  | callUpdate (tag : Str)
  | screenPop (exten : Str)
  | aiTranscription (conversationId : Str)
deriving DecidableEq

/-- Shallow embedding of `CTIMiddleware.handleNewCall`.  `contactResult` and
`accountResult` model the contact/account ids found by the CRM phone-number
searches (`none` when nothing was found or the CRM is unavailable); `nowMs`
models `new Date()`.  The call data is stored under `callData.uniqueId` with
`Map.prototype.set` — an existing record under the same key is silently
overwritten, no duplicate check is made. -/
def handleNewCall (nowMs : Int) (contactResult accountResult : Option Str)
    (calls : JsMap CallRec) (cd : NewCallData) : JsMap CallRec × List WsOp :=
  let fresh : CallRec := {
    callerIdNum := cd.callerIdNum, callerIdName := cd.callerIdName,
    channel := cd.channel, exten := cd.exten,
    startTime := nowMs, events := ["new".data] }
  let calls1 := jsSet calls cd.uniqueId fresh
  let calls2 :=
    match jsGet calls1 cd.uniqueId with
    | some ac => jsSet calls1 cd.uniqueId { ac with contact := contactResult, account := accountResult }
    | none => calls1
  (calls2,
   [WsOp.callUpdate "new".data] ++
     (if jsTruthy cd.exten then [WsOp.screenPop (cd.exten.getD [])] else []))

/-- Shallow embedding of `CTIMiddleware.handleHangup`, success path of the
external calls: `newCrmId` models the id returned by `suitecrm.createCall`
when the CRM is available.  The record is mutated (ended, CRM id recorded)
but deliberately kept in the map for later webhook correlation. -/
def handleHangup (crmAvailable : Bool) (nowMs : Int) (newCrmId : Str)
    (calls : JsMap CallRec) (h : HangupData) : JsMap CallRec × List CrmOp × List WsOp :=
  match jsGet calls h.uniqueId with
  | none => (calls, [], [])
  | some activeCall =>
    let call1 := { activeCall with
      endTime := some nowMs, duration := some h.duration,
      hangupCause := some h.causeTxt,
      events := activeCall.events ++ ["hangup".data] }
    if crmAvailable then
      let crmCallData : CrmCallData := {
        name := "Call from ".data ++ h.callerIdNum,
        callerIdNum := h.callerIdNum,
        callerIdName := jsOr (h.callerIdName.getD []) activeCall.callerIdName,
        startTime := some activeCall.startTime,
        duration := h.duration,
        status := "Held".data,
        direction := "Inbound".data,
        description := "Call ended: ".data ++ h.causeTxt ++ "\nChannel: ".data ++ h.channel,
        conversationId := activeCall.conversationId }
      let ops := [CrmOp.createCall crmCallData] ++
        (match activeCall.contact with
         | some cid => [CrmOp.linkContact newCrmId cid]
         | none => []) ++
        (match activeCall.account with
         | some aid => [CrmOp.linkAccount newCrmId aid]
         | none => [])
      (jsSet calls h.uniqueId { call1 with crmCallId := some newCrmId }, ops,
       [WsOp.callUpdate "hangup".data])
    else
      (jsSet calls h.uniqueId call1, [], [WsOp.callUpdate "hangup".data])

/-- The PATCH payload of the webhook update branch. -/
def webhookUpdates (w : WebhookCallData) : CallUpdates := {
  aiSummary := w.summary,
  transcript := formatTranscript w.transcript,
  callSuccessful := w.callSuccessful,
  cost := w.cost,
  conversationId := w.conversationId }

/-- The call-log payload of the webhook update branch: caller name and phone
number fall back to the matched in-memory call's metadata. -/
def matchedCallLog (w : WebhookCallData) (call : CallRec) : CallLogData := {
  name := "Call Log - ".data ++ w.conversationId,
  conversationId := w.conversationId,
  callerName := jsOr w.userName call.callerIdName,
  phoneNumber := jsOr w.phoneNumber call.callerIdNum,
  summary := w.summary,
  transcript := formatTranscript w.transcript,
  successful := w.callSuccessful,
  cost := w.cost,
  duration := w.duration,
  terminationReason := w.terminationReason }

/-- The CRM call payload synthesized by the webhook create branch — built from
the webhook data alone (no fallback to any in-memory call's metadata). -/
def webhookCrmCallData (w : WebhookCallData) : CrmCallData := {
  name := "AI Call - ".data ++ w.conversationId,
  startTime := some (w.startTime * 1000),
  duration := w.duration,
  status := "Held".data,
  direction := "Inbound".data,
  description := "AI-assisted call\nTermination: ".data ++ w.terminationReason ++
    "\nAgent ID: ".data ++ w.agentId,
  callerIdName := w.userName,
  callerIdNum := w.phoneNumber,
  aiSummary := some w.summary,
  transcript := some (formatTranscript w.transcript),
  callSuccessful := some w.callSuccessful,
  cost := some w.cost,
  conversationId := some w.conversationId }

/-- The call-log payload of the webhook create branch (webhook data alone). -/
def webhookCallLog (w : WebhookCallData) : CallLogData := {
  name := "Call Log - ".data ++ w.conversationId,
  conversationId := w.conversationId,
  callerName := w.userName,
  phoneNumber := w.phoneNumber,
  summary := w.summary,
  transcript := formatTranscript w.transcript,
  successful := w.callSuccessful,
  cost := w.cost,
  duration := w.duration,
  terminationReason := w.terminationReason }

/-- The store mutations of the webhook create branch
(`suitecrm.createCall` followed by `suitecrm.createCallLog`). -/
def webhookCreateOps (w : WebhookCallData) : List CrmOp :=
  [CrmOp.createCall (webhookCrmCallData w), CrmOp.createCallLog (webhookCallLog w)]

/-- Shallow embedding of `CTIMiddleware.handlePostCallTranscription`, success
path of the external calls.  The matching loop is the first entry of
`activeCalls` whose `conversationId` equals the webhook's; the update branch
fires when that call already carries a truthy `crmCallId` and the CRM is
available, PATCHes the record, creates a call log, and deletes the in-memory
call; otherwise, when the CRM is available, a fresh record is created from the
webhook data alone and the map is left untouched.  The `ai_transcription`
broadcast is issued in every case. -/
def handlePostCallTranscription (crmAvailable : Bool) (calls : JsMap CallRec)
    (w : WebhookCallData) : JsMap CallRec × List CrmOp × List WsOp :=
  let matching := calls.find? fun kv => kv.2.conversationId = some w.conversationId
  let broadcastOps := [WsOp.aiTranscription w.conversationId]
  match matching with
  | some (uniqueId, call) =>
    if jsTruthy call.crmCallId && crmAvailable then
      (jsDelete calls uniqueId,
       [CrmOp.updateCall (call.crmCallId.getD []) (webhookUpdates w),
        CrmOp.createCallLog (matchedCallLog w call)],
       broadcastOps)
    else if crmAvailable then
      (calls, webhookCreateOps w, broadcastOps)
    else (calls, [], broadcastOps)
  | none =>
    if crmAvailable then
      (calls, webhookCreateOps w, broadcastOps)
    else (calls, [], broadcastOps)

/-- Shallow embedding of `CTIMiddleware.cleanupOldCalls`: iterate over the
entries, deleting every call whose age exceeds `maxAgeMinutes` and counting
the deletions; returns the surviving map and the count. -/
def cleanupOldCalls (nowMs maxAgeMinutes : Int) (calls : JsMap CallRec) :
    JsMap CallRec × Nat :=
  calls.foldl
    (fun acc kv =>
      if nowMs - kv.2.startTime > maxAgeMinutes * 60 * 1000 then
        (jsDelete acc.1 kv.1, acc.2 + 1)
      else acc)
    (calls, 0)

lemma jsGet_set_self {α : Type} (m : JsMap α) (k : Str) (v : α) :
    jsGet (jsSet m k v) k = some v := by
  induction m with
  | nil => simp [jsSet, jsGet]
  | cons kv rest ih =>
    by_cases h : kv.1 = k
    · simp [jsSet, jsGet, h]
    · simp [jsSet, jsGet, h, ih]

lemma jsSet_length_of_get_some {α : Type} (m : JsMap α) (k : Str) (v old : α)
    (h : jsGet m k = some old) : (jsSet m k v).length = m.length := by
  induction m with
  | nil => simp [jsGet] at h
  | cons kv rest ih =>
    by_cases hk : kv.1 = k
    · simp [jsSet, hk]
    · rw [jsGet, if_neg hk] at h
      simp [jsSet, hk, ih h]

/-- C4 counterexample: a `call:new` event for a correlation key that is already
live is not rejected — the existing record (here: an ended call holding a CRM
id) is silently replaced by a fresh one, so the claimed `DuplicateKey` failure
with the existing record left unchanged does not happen. -/
theorem handleNewCall_duplicate_overwrites :
    (jsGet (handleNewCall 5000 none none
        [("K".data,
          ({
            callerIdNum := "+15550001".data,
            startTime := 0,
            events := ["new".data, "hangup".data],
            crmCallId := some "crm9".data } : CallRec))]
        { uniqueId := "K".data, callerIdNum := "+15550001".data }).1 "K".data).map
        CallRec.crmCallId = some none
    ∧ (jsGet (handleNewCall 5000 none none
        [("K".data,
          ({
            callerIdNum := "+15550001".data,
            startTime := 0,
            events := ["new".data, "hangup".data],
            crmCallId := some "crm9".data } : CallRec))]
        { uniqueId := "K".data, callerIdNum := "+15550001".data }).1 "K".data).map
        CallRec.events = some ["new".data] := by decide

/-- C4 amended: creating a call record for a correlation key that already
exists as a live entry silently overwrites the existing record with a fresh
one (start time and event log reset, prior correlation state dropped) and
raises no error; the map size is unchanged. -/
theorem handleNewCall_duplicate_behavior (nowMs : Int) (c a : Option Str)
    (calls : JsMap CallRec) (cd : NewCallData) (old : CallRec)
    (h : jsGet calls cd.uniqueId = some old) :
    jsGet (handleNewCall nowMs c a calls cd).1 cd.uniqueId =
      some {
        callerIdNum := cd.callerIdNum,
        callerIdName := cd.callerIdName,
        channel := cd.channel,
        exten := cd.exten,
        startTime := nowMs,
        events := ["new".data],
        contact := c,
        account := a }
    ∧ (handleNewCall nowMs c a calls cd).1.length = calls.length := by
  simp only [handleNewCall, jsGet_set_self]
  refine ⟨trivial, ?_⟩
  rw [jsSet_length_of_get_some _ cd.uniqueId _ _ (jsGet_set_self calls cd.uniqueId _),
    jsSet_length_of_get_some calls cd.uniqueId _ old h]

/-- Witness for the amended C4 at a concrete duplicate key. -/
theorem handleNewCall_duplicate_behavior_witness :
    jsGet (handleNewCall 7 (some "ct1".data) none
        [("K".data, ({ startTime := 1 } : CallRec))]
        { uniqueId := "K".data, callerIdNum := "5".data }).1 "K".data =
      some {
        callerIdNum := "5".data,
        startTime := 7,
        events := ["new".data],
        contact := some "ct1".data }
    ∧ (handleNewCall 7 (some "ct1".data) none
        [("K".data, ({ startTime := 1 } : CallRec))]
        { uniqueId := "K".data, callerIdNum := "5".data }).1.length = 1 :=
  handleNewCall_duplicate_behavior 7 (some "ct1".data) none
    [("K".data, ({ startTime := 1 } : CallRec))]
    { uniqueId := "K".data, callerIdNum := "5".data }
    { startTime := 1 } (by decide)

/-- C1 amended: after a first webhook delivery that correlates with a call
carrying an external record id (the update branch: one UPDATE, one call-log
create, record deleted), a second delivery of the same event finds no record
and performs no UPDATE — but it is not a store no-op: the create branch fires
and synthesizes a fresh record from the webhook data. -/
theorem webhook_redelivery (calls : JsMap CallRec) (w : WebhookCallData)
    (uid : Str) (call : CallRec) (crmId : Str)
    (hfind : calls.find? (fun kv => kv.2.conversationId = some w.conversationId) =
      some (uid, call))
    (hcrm : call.crmCallId = some crmId)
    (hne : crmId ≠ [])
    (hgone : (jsDelete calls uid).find?
      (fun kv => kv.2.conversationId = some w.conversationId) = none) :
    (handlePostCallTranscription true calls w).2.1 =
      [CrmOp.updateCall crmId (webhookUpdates w),
       CrmOp.createCallLog (matchedCallLog w call)]
    ∧ (handlePostCallTranscription true calls w).1 = jsDelete calls uid
    ∧ (handlePostCallTranscription true
        (handlePostCallTranscription true calls w).1 w).2.1 = webhookCreateOps w
    ∧ (∀ id u, CrmOp.updateCall id u ∉
        (handlePostCallTranscription true
          (handlePostCallTranscription true calls w).1 w).2.1)
    ∧ (handlePostCallTranscription true
        (handlePostCallTranscription true calls w).1 w).1 =
      (handlePostCallTranscription true calls w).1 := by
  have h1 : handlePostCallTranscription true calls w =
      (jsDelete calls uid,
       [CrmOp.updateCall crmId (webhookUpdates w),
        CrmOp.createCallLog (matchedCallLog w call)],
       [WsOp.aiTranscription w.conversationId]) := by
    simp [handlePostCallTranscription, hfind, hcrm, jsTruthy, isEmpty_false_of_ne_nil hne]
  have h2 : handlePostCallTranscription true (jsDelete calls uid) w =
      (jsDelete calls uid, webhookCreateOps w, [WsOp.aiTranscription w.conversationId]) := by
    simp [handlePostCallTranscription, hgone]
  refine ⟨?_, ?_, ?_, ?_, ?_⟩
  · simp [h1]
  · simp [h1]
  · simp [h1, h2]
  · intro id u
    simp [h1, h2, webhookCreateOps]
  · simp [h1, h2]

/-- The call record used by the concrete C1 scenario: correlated and already
reconciled (it carries a CRM id). -/
def c1Rec : CallRec := {
  callerIdNum := "+15550001".data,
  startTime := 0,
  events := ["new".data, "hangup".data],
  conversationId := some "abc".data,
  crmCallId := some "c1".data }

/-- The store holding the C1 scenario record. -/
def c1Calls : JsMap CallRec := [("K1".data, c1Rec)]

/-- The webhook event of the C1 scenario. -/
def c1Webhook : WebhookCallData := {
  conversationId := "abc".data,
  summary := "S".data,
  callSuccessful := "success".data }

/-- Witness for the amended C1 at the concrete scenario. -/
theorem webhook_redelivery_witness :
    (handlePostCallTranscription true c1Calls c1Webhook).1 = jsDelete c1Calls "K1".data
    ∧ (handlePostCallTranscription true
        (handlePostCallTranscription true c1Calls c1Webhook).1 c1Webhook).2.1 =
      webhookCreateOps c1Webhook :=
  have h := webhook_redelivery c1Calls c1Webhook "K1".data c1Rec "c1".data
    (by decide) (by decide) (by decide) (by decide)
  ⟨h.2.1, h.2.2.1⟩

/-- C1 counterexample: delivering the same webhook twice is not idempotent —
the second delivery performs store mutations (a CREATE of a synthesized
record plus a call-log create), not a no-op. -/
theorem webhook_redelivery_not_noop :
    ((handlePostCallTranscription true
      (handlePostCallTranscription true c1Calls c1Webhook).1 c1Webhook).2.1).length = 2 := by
  decide

/-- The call record of the C2 race scenario: the webhook raced ahead of the
hangup, so the record has a `conversationId` but no CRM id yet. -/
def c2Rec : CallRec := {
  callerIdNum := "+15550002".data,
  callerIdName := "Ann".data,
  startTime := 0,
  events := ["new".data],
  conversationId := some "xyz".data }

/-- The store holding the C2 scenario record. -/
def c2Calls : JsMap CallRec := [("K2".data, c2Rec)]

/-- The webhook event of the C2 scenario (it carries no phone number or user
name of its own). -/
def c2Webhook : WebhookCallData := {
  conversationId := "xyz".data,
  summary := "S".data,
  duration := 42 }

/-- The hangup event of the C2 scenario, arriving after the webhook. -/
def c2Hangup : HangupData := {
  uniqueId := "K2".data,
  callerIdNum := "+15550002".data,
  duration := 42,
  causeTxt := "normal".data }

/-- C2 evaluated at the failing input: when the webhook finds the record
without a CRM id, the create branch builds the record from the webhook data
alone (the in-memory caller number `+15550002` is dropped: the created
`callerIdNum` is empty), the in-memory record is NOT deleted, and the
subsequent hangup for the same key is not a silent no-op — it performs a
second CRM create for the same call. -/
theorem webhook_race_duplicate_create :
    (handlePostCallTranscription true c2Calls c2Webhook).1 = c2Calls
    ∧ (handlePostCallTranscription true c2Calls c2Webhook).2.1 = webhookCreateOps c2Webhook
    ∧ (webhookCrmCallData c2Webhook).callerIdNum = []
    ∧ ((handleHangup true 99000 "c77".data
        (handlePostCallTranscription true c2Calls c2Webhook).1 c2Hangup).2.1).length = 1 := by
  decide

lemma sweep_foldl_snd (p : Str × CallRec → Prop) [DecidablePred p] :
    ∀ (l : List (Str × CallRec)) (m : JsMap CallRec) (n : Nat),
    (l.foldl (fun acc kv => if p kv then (jsDelete acc.1 kv.1, acc.2 + 1) else acc) (m, n)).2 =
      n + l.countP (fun kv => decide (p kv)) := by
  intro l
  induction l with
  | nil => intro m n; simp
  | cons a l ih =>
    intro m n
    by_cases hp : p a
    · simp only [List.foldl_cons, if_pos hp, ih, List.countP_cons, hp]
      simp
      omega
    · simp only [List.foldl_cons, if_neg hp, ih, List.countP_cons]
      simp [hp]

lemma sweep_foldl_fst (p : Str × CallRec → Prop) [DecidablePred p] :
    ∀ (l : List (Str × CallRec)) (m : JsMap CallRec) (n : Nat),
    (l.foldl (fun acc kv => if p kv then (jsDelete acc.1 kv.1, acc.2 + 1) else acc) (m, n)).1 =
      l.foldl (fun acc kv => if p kv then jsDelete acc kv.1 else acc) m := by
  intro l
  induction l with
  | nil => intro m n; simp
  | cons a l ih =>
    intro m n
    by_cases hp : p a
    · simp only [List.foldl_cons, if_pos hp, ih]
    · simp only [List.foldl_cons, if_neg hp, ih]

lemma delete_foldl_eq_filter (p : Str × CallRec → Prop) [DecidablePred p] :
    ∀ (l : List (Str × CallRec)) (m : JsMap CallRec),
    l.foldl (fun acc kv => if p kv then jsDelete acc kv.1 else acc) m =
      m.filter (fun kv => l.all fun e => !(decide (p e)) || !(decide (kv.1 = e.1))) := by
  intro l
  induction l with
  | nil =>
    intro m
    simp
  | cons a l ih =>
    intro m
    by_cases hp : p a
    · simp only [List.foldl_cons, if_pos hp]
      rw [ih (jsDelete m a.1)]
      rw [jsDelete, List.filter_filter]
      refine List.filter_congr ?_
      intro kv _
      simp [hp, Bool.and_comm]
    · simp only [List.foldl_cons, if_neg hp]
      rw [ih m]
      refine List.filter_congr ?_
      intro kv _
      simp [hp]

lemma sweep_all_keys (p : Str × CallRec → Prop) [DecidablePred p]
    (calls : List (Str × CallRec)) (hnodup : (calls.map Prod.fst).Nodup)
    (kv : Str × CallRec) (hm : kv ∈ calls) :
    (calls.all fun e => !(decide (p e)) || !(decide (kv.1 = e.1))) = !(decide (p kv)) := by
  by_cases hp : p kv
  · have hb : (!(decide (p kv))) = false := by simp [hp]
    rw [hb]
    refine List.all_eq_false.mpr ⟨kv, hm, ?_⟩
    simp [hp]
  · have hb : (!(decide (p kv))) = true := by simp [hp]
    rw [hb]
    refine List.all_eq_true.mpr ?_
    intro e he
    by_cases hpe : p e
    · have hne : kv.1 ≠ e.1 := by
        intro hkey
        have : kv = e := List.inj_on_of_nodup_map hnodup hm he hkey
        rw [this] at hp
        exact hp hpe
      simp [hne]
    · simp [hpe]

/-- C7: on a store with unique keys (the invariant `Map` maintains), the
periodic sweep removes exactly the records whose age `now - startedAt`
exceeds the threshold — regardless of any other record state — keeps every
younger record unchanged (the survivors are the filter of the original list),
and returns the number of evicted records. -/
theorem cleanupOldCalls_exact (nowMs maxAgeMinutes : Int) (calls : JsMap CallRec)
    (hnodup : (calls.map Prod.fst).Nodup) :
    (cleanupOldCalls nowMs maxAgeMinutes calls).1 =
      calls.filter (fun kv => decide (nowMs - kv.2.startTime ≤ maxAgeMinutes * 60 * 1000))
    ∧ (cleanupOldCalls nowMs maxAgeMinutes calls).2 =
      calls.countP (fun kv => decide (nowMs - kv.2.startTime > maxAgeMinutes * 60 * 1000))
    ∧ ∀ kv, kv ∈ (cleanupOldCalls nowMs maxAgeMinutes calls).1 ↔
        (kv ∈ calls ∧ nowMs - kv.2.startTime ≤ maxAgeMinutes * 60 * 1000) := by
  have hfst : (cleanupOldCalls nowMs maxAgeMinutes calls).1 =
      calls.filter (fun kv => decide (nowMs - kv.2.startTime ≤ maxAgeMinutes * 60 * 1000)) := by
    unfold cleanupOldCalls
    rw [sweep_foldl_fst (fun kv => nowMs - kv.2.startTime > maxAgeMinutes * 60 * 1000)
      calls calls 0]
    rw [delete_foldl_eq_filter (fun kv => nowMs - kv.2.startTime > maxAgeMinutes * 60 * 1000)
      calls calls]
    refine List.filter_congr ?_
    intro kv hm
    rw [sweep_all_keys (fun kv => nowMs - kv.2.startTime > maxAgeMinutes * 60 * 1000)
      calls hnodup kv hm]
    rw [← decide_not]
    exact decide_eq_decide.mpr not_lt
  refine ⟨hfst, ?_, ?_⟩
  · unfold cleanupOldCalls
    rw [sweep_foldl_snd (fun kv => nowMs - kv.2.startTime > maxAgeMinutes * 60 * 1000)
      calls calls 0]
    simp
  · intro kv
    rw [hfst]
    simp [List.mem_filter]

/-- Witness for C7 on a concrete two-record store: the hour-old record is
evicted, the fresh one survives untouched, and the count is 1. -/
theorem cleanupOldCalls_exact_witness :
    (cleanupOldCalls 100000 1
        [("A".data, ({ startTime := 0 } : CallRec)),
         ("B".data, ({ startTime := 99000 } : CallRec))]).1 =
      [("B".data, ({ startTime := 99000 } : CallRec))]
    ∧ (cleanupOldCalls 100000 1
        [("A".data, ({ startTime := 0 } : CallRec)),
         ("B".data, ({ startTime := 99000 } : CallRec))]).2 = 1 :=
  have h := cleanupOldCalls_exact 100000 1
    [("A".data, ({ startTime := 0 } : CallRec)),
     ("B".data, ({ startTime := 99000 } : CallRec))] (by decide)
  ⟨h.1.trans (by decide), h.2.1.trans (by decide)⟩

/-- An HTTP response of the webhook POST route. -/
inductive WebhookResponse
  | badRequest (msg : Str)
  | unauthorized (msg : Str)
  | okResponse (note : Option Str)
deriving DecidableEq

/-- HTTP status code of a `WebhookResponse`. -/
def statusCode : WebhookResponse → Nat
  | WebhookResponse.badRequest _ => 400
  | WebhookResponse.unauthorized _ => 401
  | WebhookResponse.okResponse _ => 200

/-- Shallow embedding of the POST handler installed by
`ElevenLabsWebhook.setupRoutes`.  `headerValue` is the signature header (`none`
when the request carries none); `parseOk` models whether `JSON.parse` succeeds
on the raw body; `handlerOk` models whether the registered
`processWebhookEvent` handler chain succeeds.  Returns the HTTP response
together with whether the event-processing core was invoked.  Parse and
handler failures are caught and acknowledged with a 200 response carrying a
processing-error note, by design against webhook retry storms. -/
def webhookRoute (hmacHex : Str → Str → Str) (nowMs toleranceSecs : Int)
    (secret : Option Str) (headerValue : Option Str) (body : Str)
    (parseOk handlerOk : Bool) : WebhookResponse × Bool :=
  match headerValue with
  | none => (WebhookResponse.badRequest "Missing signature header".data, false)
  | some h =>
    let r := verifySignature hmacHex nowMs toleranceSecs secret body h
    if r.valid then
      if !parseOk then (WebhookResponse.okResponse (some "Processing error".data), false)
      else if !handlerOk then (WebhookResponse.okResponse (some "Processing error".data), true)
      else (WebhookResponse.okResponse none, true)
    else (WebhookResponse.unauthorized (r.error.getD "Invalid signature".data), false)

/-- C8: a webhook request that passes signature verification is acknowledged
with a 200-class status regardless of the processing outcome (body-parse
failure and downstream handler failure included); a request without a
signature header gets 400 and an invalid signature gets 401, both before the
event-processing core is touched. -/
theorem webhookRoute_ack_policy (hmacHex : Str → Str → Str)
    (nowMs toleranceSecs : Int) (secret : Option Str) (headerValue : Option Str)
    (body : Str) (parseOk handlerOk : Bool) :
    (∀ h, headerValue = some h →
      (verifySignature hmacHex nowMs toleranceSecs secret body h).valid = true →
      statusCode (webhookRoute hmacHex nowMs toleranceSecs secret headerValue body
        parseOk handlerOk).1 = 200)
    ∧ (headerValue = none →
      webhookRoute hmacHex nowMs toleranceSecs secret headerValue body parseOk handlerOk =
        (WebhookResponse.badRequest "Missing signature header".data, false))
    ∧ (∀ h, headerValue = some h →
      (verifySignature hmacHex nowMs toleranceSecs secret body h).valid = false →
      statusCode (webhookRoute hmacHex nowMs toleranceSecs secret headerValue body
        parseOk handlerOk).1 = 401
      ∧ (webhookRoute hmacHex nowMs toleranceSecs secret headerValue body
          parseOk handlerOk).2 = false) := by
  refine ⟨?_, ?_, ?_⟩
  · rintro h rfl hv
    simp only [webhookRoute, hv]
    cases parseOk <;> cases handlerOk <;> rfl
  · rintro rfl
    rfl
  · rintro h rfl hv
    simp only [webhookRoute, hv]
    exact ⟨rfl, rfl⟩

/-- Witness for C8: a verified request whose handler fails is still a 200,
and a bad signature is a 401 with the core untouched. -/
theorem webhookRoute_ack_policy_witness :
    statusCode (webhookRoute (fun _ _ => []) 0 0 none (some "t=5,v0=zz".data) "b".data
      true false).1 = 200
    ∧ statusCode (webhookRoute (fun s m => s ++ m) 0 0 (some "k".data)
        (some "t=5,v0=zz".data) "b".data true true).1 = 401 :=
  have h1 := webhookRoute_ack_policy (fun _ _ => []) 0 0 none (some "t=5,v0=zz".data)
    "b".data true false
  have h2 := webhookRoute_ack_policy (fun s m => s ++ m) 0 0 (some "k".data)
    (some "t=5,v0=zz".data) "b".data true true
  ⟨h1.1 "t=5,v0=zz".data rfl (by decide), (h2.2.2 "t=5,v0=zz".data rfl (by decide)).1⟩

/-- A live WebSocket client entry of `WebSocketServer.clients`. -/
structure WSClient where
  id : Str
  isAlive : Bool := true
  opened : Bool := true
  agentId : Option Str := none
deriving DecidableEq

/-- Shallow embedding of `WebSocketServer.handleConnection`: when the live
connection count is at or above `maxConnections` the socket is closed and no
entry is stored (`false`); otherwise the client entry is appended (`true`). -/
def handleConnection (maxConnections : Nat) (clients : List WSClient) (c : WSClient) :
    List WSClient × Bool :=
  if clients.length ≥ maxConnections then (clients, false)
  else (clients ++ [c], true)

/-- Shallow embedding of `WebSocketServer.sendToClient`: true iff the client is
registered and its socket is open. -/
def sendToClient (clients : List WSClient) (clientId : Str) : Bool :=
  match clients.find? (fun c => c.id = clientId) with
  | none => false
  | some c => c.opened

/-- Shallow embedding of `WebSocketServer.broadcast`: number of registered,
non-excluded clients the message was delivered to. -/
def broadcast (clients : List WSClient) (excludeClientId : Option Str) : Nat :=
  (clients.filter fun c =>
    !(decide (some c.id = excludeClientId)) && sendToClient clients c.id).length

/-- C9: a registration attempt while the registry is at or above capacity is
rejected — the registry is returned unchanged, the rejected client is absent
and contributes nothing to subsequent broadcast delivery counts — and the
registry never grows beyond the configured maximum. -/
theorem handleConnection_capacity (maxConnections : Nat) (clients : List WSClient)
    (c : WSClient) (excl : Option Str) :
    (clients.length ≥ maxConnections →
      handleConnection maxConnections clients c = (clients, false)
      ∧ broadcast (handleConnection maxConnections clients c).1 excl =
          broadcast clients excl
      ∧ (c ∉ clients → c ∉ (handleConnection maxConnections clients c).1))
    ∧ (clients.length ≤ maxConnections →
      (handleConnection maxConnections clients c).1.length ≤ maxConnections) := by
  constructor
  · intro hcap
    have hrej : handleConnection maxConnections clients c = (clients, false) := by
      unfold handleConnection
      rw [if_pos hcap]
    exact ⟨hrej, by rw [hrej], fun hnot => by rw [hrej]; exact hnot⟩
  · intro hle
    unfold handleConnection
    by_cases hcap : clients.length ≥ maxConnections
    · rw [if_pos hcap]
      exact hle
    · rw [if_neg hcap]
      simp only [List.length_append, List.length_cons, List.length_nil]
      omega

/-- Witness for C9: with `maxConnections = 1` and one live client, a second
registration is rejected, the broadcast count stays 1, and the registry stays
within capacity. -/
theorem handleConnection_capacity_witness :
    handleConnection 1 [{ id := "a".data }] { id := "b".data } =
      ([{ id := "a".data }], false)
    ∧ broadcast (handleConnection 1 [{ id := "a".data }] { id := "b".data }).1 none = 1
    ∧ (handleConnection 1 [{ id := "a".data }] { id := "b".data }).1.length ≤ 1 :=
  have h := handleConnection_capacity 1 [{ id := "a".data }] { id := "b".data } none
  have h1 := h.1 (by decide)
  ⟨h1.1, (h1.2.1).trans (by decide), h.2 (by decide)⟩

/-- The `errors` object of a SuiteCRM validation-error response body:
optional `title` and `detail` texts plus the remaining error keys. -/
structure StoreErrors where
  title : Option Str := none
  detail : Option Str := none
  keys : List Str := []
deriving DecidableEq

/-- A SuiteCRM response to a create request: a created id, or an HTTP error
with status and optional `errors` body. -/
inductive StoreResponse
  | ok (id : Str)
  | httpError (status : Nat) (errors : Option StoreErrors)
deriving DecidableEq

/-- JS `String.prototype.includes`: `sub` occurs contiguously inside `s`. -/
def strIncludes (sub : Str) : Str → Bool
  | [] => sub.isEmpty
  | c :: rest => sub.isPrefixOf (c :: rest) || strIncludes sub rest

/-- The retry trigger of `createCall`: an HTTP 400 whose error body mentions
`conversation_id_c` in its title, its detail, or one of its keys
(`String.prototype.includes` is infix containment). -/
def isCustomFieldsError : StoreResponse → Bool
  | StoreResponse.ok _ => false
  | StoreResponse.httpError status errors =>
    match errors with
    | none => false
    | some e =>
      status == 400 &&
      ((match e.title with
        | some t => strIncludes "conversation_id_c".data t
        | none => false) ||
       (match e.detail with
        | some d => strIncludes "conversation_id_c".data d
        | none => false) ||
       e.keys.any fun k => strIncludes "conversation_id_c".data k)

/-- The fallback naming of `createCall` when `callData.name` is absent. -/
def createCallName (cd : CrmCallData) : Str :=
  if !cd.name.isEmpty then cd.name
  else if !cd.callerIdNum.isEmpty then "Call from ".data ++ cd.callerIdNum
  else
    match cd.conversationId with
    | some cid => if !cid.isEmpty then "Call - ".data ++ cid else "AI Call".data
    | none => "AI Call".data

/-- The SuiteCRM `Calls` attribute payload.  The base attributes are always
present; the custom (`_c`) fields are optional. -/
structure CallAttributes where
  name : Str := []
  status : Str := []
  direction : Str := []
  dateStart : Int := 0
  durationHours : Nat := 0
  durationMinutes : Nat := 0
  description : Str := []
  callerIdName : Option Str := none
  conversationId : Option Str := none
  aiSummary : Option Str := none
  callTranscript : Option Str := none
  callSuccessful : Option Str := none
  callCost : Option Int := none
deriving DecidableEq

/-- The base (always-valid) attribute set built by `createCall`.  Durations
are non-negative, so `Math.floor` on the hour/minute splits is natural
division. -/
def baseAttributes (nowMs : Int) (cd : CrmCallData) : CallAttributes := {
  name := createCallName cd,
  status := jsOr cd.status "Held".data,
  direction := jsOr cd.direction "Inbound".data,
  dateStart := cd.startTime.getD nowMs,
  durationHours := cd.duration.toNat / 3600,
  durationMinutes := cd.duration.toNat % 3600 / 60,
  description := cd.description }

/-- The full attribute set: base attributes plus each custom field that passes
its guard (`typeof === 'string'` always holds in the embedding; the guard is
non-empty trim, with `conversation_id_c` additionally trimmed and truncated to
255 characters). -/
def fullAttributes (nowMs : Int) (cd : CrmCallData) : CallAttributes :=
  { baseAttributes nowMs cd with
    callerIdName :=
      if !(jsTrim cd.callerIdName).isEmpty then some cd.callerIdName else none,
    conversationId :=
      match cd.conversationId with
      | some cid => if !(jsTrim cid).isEmpty then some ((jsTrim cid).take 255) else none
      | none => none,
    aiSummary :=
      match cd.aiSummary with
      | some s => if !(jsTrim s).isEmpty then some s else none
      | none => none,
    callTranscript :=
      match cd.transcript with
      | some s => if !(jsTrim s).isEmpty then some s else none
      | none => none,
    callSuccessful :=
      match cd.callSuccessful with
      | some s => if !(jsTrim s).isEmpty then some s else none
      | none => none,
    callCost := cd.cost }

/-- Shallow embedding of `SuiteCRMClient.createCall` (the variant carrying the
retry-without-custom-fields fallback).  `store` abstracts the SuiteCRM
`POST /module` endpoint.  The full payload is attempted first; if the store
rejects it with the `conversation_id_c` validation error the base payload is
posted once, and a failure of that retry rethrows the original error; any
other error is surfaced without retry.  Returns the outcome and the list of
payloads actually posted. -/
def createCall (store : CallAttributes → StoreResponse) (nowMs : Int)
    (cd : CrmCallData) : Except StoreResponse Str × List CallAttributes :=
  match store (fullAttributes nowMs cd) with
  | StoreResponse.ok id => (Except.ok id, [fullAttributes nowMs cd])
  | StoreResponse.httpError st errs =>
    if isCustomFieldsError (StoreResponse.httpError st errs) then
      match store (baseAttributes nowMs cd) with
      | StoreResponse.ok id =>
        (Except.ok id, [fullAttributes nowMs cd, baseAttributes nowMs cd])
      | StoreResponse.httpError _ _ =>
        (Except.error (StoreResponse.httpError st errs),
         [fullAttributes nowMs cd, baseAttributes nowMs cd])
    else
      (Except.error (StoreResponse.httpError st errs), [fullAttributes nowMs cd])

/-- C6 counterexample: a 400 schema-validation error naming only the AI-summary
extended field (`ai_summary_c`) — one of the optional extended fields — is NOT
retried with the base attribute set: the error is surfaced after a single
request.  The fallback only fires on errors naming `conversation_id_c`. -/
theorem createCall_summary_error_not_retried :
    (createCall
        (fun _ => StoreResponse.httpError 400 (some { keys := ["ai_summary_c".data] }))
        0 { name := "N".data }).2 =
      [fullAttributes 0 { name := "N".data }]
    ∧ (createCall
        (fun _ => StoreResponse.httpError 400 (some { keys := ["ai_summary_c".data] }))
        0 { name := "N".data }).1 =
      Except.error (StoreResponse.httpError 400 (some { keys := ["ai_summary_c".data] })) := by
  constructor
  · rfl
  · rfl

/-- C6 amended: the retry-without-extended-fields fallback fires exactly when
the full-payload create fails with a 400 validation error mentioning the
`conversation_id_c` custom field (in its title, detail, or keys): then the
create is retried exactly once with only the base attribute set.  Any other
error — including validation errors naming only the other extended fields —
is surfaced to the caller without this retry. -/
theorem createCall_fallback (store : CallAttributes → StoreResponse) (nowMs : Int)
    (cd : CrmCallData) :
    (isCustomFieldsError (store (fullAttributes nowMs cd)) = true →
      (createCall store nowMs cd).2 =
        [fullAttributes nowMs cd, baseAttributes nowMs cd])
    ∧ (∀ st errs, store (fullAttributes nowMs cd) = StoreResponse.httpError st errs →
      isCustomFieldsError (StoreResponse.httpError st errs) = false →
      createCall store nowMs cd =
        (Except.error (StoreResponse.httpError st errs), [fullAttributes nowMs cd])) := by
  constructor
  · intro htrig
    cases hresp : store (fullAttributes nowMs cd) with
    | ok id =>
      rw [hresp] at htrig
      simp [isCustomFieldsError] at htrig
    | httpError st errs =>
      rw [hresp] at htrig
      unfold createCall
      rw [hresp]
      simp only [htrig, if_true]
      cases store (baseAttributes nowMs cd) <;> rfl
  · intro st errs hresp hno
    unfold createCall
    rw [hresp]
    simp [hno]

/-- Witness for the amended C6: a store whose schema lacks the custom fields
(400 naming `conversation_id_c`) triggers exactly one base-payload retry,
and a 500 transient error is surfaced without the fallback retry. -/
theorem createCall_fallback_witness :
    (createCall
        (fun a => if a.conversationId.isSome then
            StoreResponse.httpError 400 (some { title := some "conversation_id_c".data })
          else StoreResponse.ok "id1".data)
        0 { name := "N".data, conversationId := some "x".data }).2 =
      [fullAttributes 0 { name := "N".data, conversationId := some "x".data },
       baseAttributes 0 { name := "N".data, conversationId := some "x".data }]
    ∧ createCall (fun _ => StoreResponse.httpError 500 none) 0 { name := "N".data } =
      (Except.error (StoreResponse.httpError 500 none),
       [fullAttributes 0 { name := "N".data }]) :=
  have h1 := createCall_fallback
    (fun a => if a.conversationId.isSome then
        StoreResponse.httpError 400 (some { title := some "conversation_id_c".data })
      else StoreResponse.ok "id1".data)
    0 { name := "N".data, conversationId := some "x".data }
  have h2 := createCall_fallback (fun _ => StoreResponse.httpError 500 none) 0
    { name := "N".data }
  ⟨h1.1 (by decide), h2.2 500 none rfl (by decide)⟩

end CTI
